import Mathlib

/-! Shallow embedding of the WarmLeggs backend (src/main.py, src/schemas.py).

Python `float` values are modelled as rationals (`ℚ`): every arithmetic
operation performed by the code (addition and multiplication of prices and
quantities, comparison against the literal 100) is modelled exactly.
Python `int` is modelled as `Int`.  MongoDB documents are schemaless, so a
stored product document is modelled by the fields the checkout code actually
reads (`title`, `price`), each possibly absent.  Pydantic field constraints
(`ge`, `le`) are modelled as explicit validity predicates checked where
pydantic would run them: at FastAPI request parsing for request bodies, and
at model construction for `OrderItem` / `Order` built inside `checkout`.
-/

namespace WarmLeggs

/-- A stored product document as read by `checkout` (main.py lines 89-102):
the code reads only `prod.get("title")` and `prod.get("price", 0)`, and a
Mongo document may lack either field. -/
structure ProductDoc where
  title : Option String
  price : Option ℚ
deriving DecidableEq, Repr

/-- Structure `CartItem` (main.py lines 68-72).  Note: `quantity : int = 1` carries no
`ge=1` constraint in the source. -/
structure CartItem where
  product_id : String
  quantity : Int := 1
  color : Option String := none
  size : Option String := none
deriving DecidableEq, Repr

/-- Structure `CheckoutRequest` (main.py lines 74-79). -/
structure CheckoutRequest where
  items : List CartItem
  customer_name : String
  customer_email : String
  shipping_address : String
  notes : Option String := none
deriving DecidableEq, Repr

/-- Structure `OrderItem` (schemas.py lines 35-41). -/
structure OrderItem where
  product_id : String
  title : String
  price : ℚ
  color : Option String := none
  size : Option String := none
  quantity : Int := 1
deriving DecidableEq, Repr

/-- Pydantic field constraints of `OrderItem`: `price ge=0`, `quantity ge=1`
(schemas.py lines 38, 41). -/
def OrderItem.valid (it : OrderItem) : Bool :=
  decide (0 ≤ it.price) && decide (1 ≤ it.quantity)

/-- Structure `Order` (schemas.py lines 43-56). -/
structure Order where
  items : List OrderItem
  customer_name : String
  customer_email : String
  shipping_address : String
  subtotal : ℚ
  shipping_cost : ℚ
  total : ℚ
  status : String := "pending"
  notes : Option String := none
deriving DecidableEq, Repr

/-- Pydantic field constraints of `Order`: `subtotal ge=0`,
`shipping_cost ge=0`, `total ge=0` (schemas.py lines 52-54).  The `items`
list carries no constraint (in particular no non-emptiness). -/
def Order.valid (o : Order) : Bool :=
  decide (0 ≤ o.subtotal) && decide (0 ≤ o.shipping_cost) && decide (0 ≤ o.total)

/-- The catalog as seen by `checkout`: `db["product"].find({"_id": ...})`
(main.py line 89) is a lookup from product id to at most one document.  The
lookup is only ever consulted for a well-formed ObjectId string: a
malformed id makes `ObjectId(...)` raise before any `find` call (see
`isValidObjectId`). -/
def Catalog : Type := String → Option ProductDoc

/-- Validity condition of `bson.ObjectId(pid)` for a string argument
(main.py line 89): exactly 24 hexadecimal characters.  Any other string
makes the constructor raise `InvalidId` before the `find` call; the
handler's generic `except` turns that into a 500. -/
def isValidObjectId (pid : String) : Bool :=
  pid.length == 24 &&
    pid.data.all (fun c =>
      c.isDigit || ('a' ≤ c && c ≤ 'f') || ('A' ≤ c && c ≤ 'F'))

/-- Failure inside the per-line loop of `checkout`: a 404 for a well-formed
but unresolvable product id (main.py line 92); the `InvalidId` raised by
`ObjectId(...)` on a malformed id (main.py line 89, before any `find`); or
a pydantic validation error raised while constructing an `OrderItem`
(main.py lines 95-102).  The latter two are turned into a 500 by the
handler's generic `except`. -/
inductive LoopErr where
  | notFound (pid : String)
  | invalidId
  | invalidItem
deriving DecidableEq, Repr

/-- The per-line loop of `checkout` (main.py lines 87-102), with the running
`subtotal`, the accumulated `order_items`, and a trace `fetched` of every
product id passed to the catalog `find` call, in order.  A malformed
product id raises in `ObjectId(...)` before the `find`, so it aborts the
loop without extending the fetch trace. -/
def checkoutLoop (store : Catalog) :
    List CartItem → ℚ → List OrderItem → List String →
    Except LoopErr (ℚ × List OrderItem) × List String
  | [], subtotal, acc, fetched => (.ok (subtotal, acc), fetched)
  | it :: rest, subtotal, acc, fetched =>
    if isValidObjectId it.product_id then
      let fetched := fetched ++ [it.product_id]
      match store it.product_id with
      | none => (.error (.notFound it.product_id), fetched)
      | some prod =>
        let price := prod.price.getD 0
        let subtotal := subtotal + price * (it.quantity : ℚ)
        match prod.title with
        | none => (.error .invalidItem, fetched)
        | some t =>
          let oi : OrderItem :=
            ⟨it.product_id, t, price, it.color, it.size, it.quantity⟩
          if oi.valid then
            checkoutLoop store rest subtotal (acc ++ [oi]) fetched
          else (.error .invalidItem, fetched)
    else (.error .invalidId, fetched)

/-- Outcome of a `POST /checkout` request.  `created o` means the loop and
both pydantic constructions succeeded and `create_document("order", o)` was
called (main.py line 116); `notFound pid` is the 404 of main.py line 92;
`serverError` is the 500 produced by the handler's generic `except` clause
(main.py lines 120-121) when pydantic validation fails. -/
inductive CheckoutOutcome where
  | created (o : Order)
  | notFound (pid : String)
  | serverError
deriving DecidableEq, Repr

/-- Function `checkout` (main.py lines 81-121), paired with the trace of product ids
fetched from the catalog store.  The order-store insert happens exactly in
the `created` case. -/
def checkout (store : Catalog) (payload : CheckoutRequest) :
    CheckoutOutcome × List String :=
  match checkoutLoop store payload.items 0 [] [] with
  | (.error (.notFound pid), tr) => (.notFound pid, tr)
  | (.error .invalidId, tr) => (.serverError, tr)
  | (.error .invalidItem, tr) => (.serverError, tr)
  | (.ok (subtotal, order_items), tr) =>
    let shipping_cost : ℚ := if 100 ≤ subtotal then 0 else 10
    let total := subtotal + shipping_cost
    let order : Order :=
      ⟨order_items, payload.customer_name, payload.customer_email,
        payload.shipping_address, subtotal, shipping_cost, total,
        "pending", payload.notes⟩
    if order.valid then (.created order, tr) else (.serverError, tr)

/-- The price the code uses for one cart line: the resolved document's
`price` field, a missing field read as 0 (main.py line 93); 0 as a junk
value when the line does not resolve. -/
def linePrice (store : Catalog) (it : CartItem) : ℚ :=
  match store it.product_id with
  | none => 0
  | some prod => prod.price.getD 0

/-- The sum the spec asserts the subtotal equals: over all lines, resolved
price times quantity. -/
def subtotalSpec (store : Catalog) (items : List CartItem) : ℚ :=
  (items.map (fun it => linePrice store it * (it.quantity : ℚ))).sum

/-- Relation stating that `oi` is exactly the `OrderItem` snapshot `checkout` builds for cart line
`it` (main.py lines 95-102): `product_id`, `color`, `size`, `quantity`
copied from the cart line; `title` and `price` from the resolved document. -/
def SnapshotOf (store : Catalog) (it : CartItem) (oi : OrderItem) : Prop :=
  ∃ prod, store it.product_id = some prod ∧
    ∃ t, prod.title = some t ∧
      oi = ⟨it.product_id, t, prod.price.getD 0, it.color, it.size, it.quantity⟩

/-- A cart line that, if it resolves, yields a pydantic-valid `OrderItem`:
the document has a title, its (defaulted) price is nonnegative, and the
line's quantity is at least 1. -/
def validLine (store : Catalog) (it : CartItem) : Prop :=
  ∀ prod, store it.product_id = some prod →
    prod.title.isSome = true ∧ 0 ≤ prod.price.getD 0 ∧ 1 ≤ it.quantity

/-- Structure `Product` (schemas.py lines 17-33). -/
structure Product where
  title : String
  description : Option String := none
  price : ℚ
  category : String := "leggings"
  in_stock : Bool := true
  images : List String := []
  colors : List String := []
  sizes : List String := []
  featured : Bool := false
  warmth_rating : Option Int := some 5
  fabric : Option String := none
  sku : Option String := none
deriving DecidableEq, Repr

/-- Pydantic field constraints of `Product`: `price ge=0` (schemas.py line
24) and `warmth_rating ge=1 le=5`, an optional field (schemas.py line 31). -/
def Product.valid (p : Product) : Bool :=
  decide (0 ≤ p.price) &&
    (match p.warmth_rating with
     | none => true
     | some r => decide (1 ≤ r) && decide (r ≤ 5))

/-- Modelled from the spec: the `database` module (`create_document`,
`get_documents`) imported by main.py line 8 is not under src/.  Per spec
section 4.1 the Catalog Store persists products and assigns each insert a
fresh opaque unique identifier; this is modelled by a list of
(identifier, product) pairs together with a counter supplying the next
fresh identifier. -/
structure CatalogStore where
  docs : List (Nat × Product)
  next : Nat
deriving DecidableEq, Repr

/-- The store invariant making identifiers unique: every identifier already
present is below the counter, so the next assigned one is fresh. -/
def CatalogStore.wf (s : CatalogStore) : Prop :=
  ∀ d ∈ s.docs, d.1 < s.next

/-- Modelled from the spec: `create_document(collection, model)` from the
missing `database` module (spec 4.1 `insert`): persists the product under a
newly assigned identifier and returns that identifier. -/
def create_document (s : CatalogStore) (p : Product) : Nat × CatalogStore :=
  (s.next, ⟨s.docs ++ [(s.next, p)], s.next + 1⟩)

/-- Modelled from the spec: `get_documents("product", query)` from the
missing `database` module (spec 4.1 `list`): returns all stored documents
matching an optional equality filter on `featured`.  The empty query of
main.py line 48 is the `none` case. -/
def get_documents (s : CatalogStore) (query : Option Bool) :
    List (Nat × Product) :=
  match query with
  | none => s.docs
  | some b => s.docs.filter (fun d => d.2.featured == b)

/-- Structure `ProductResponse` (main.py lines 24-25): a `Product` plus the stringified
stored identifier. -/
structure ProductResponse where
  id : String
  product : Product
deriving DecidableEq, Repr

/-- Function `list_products` (main.py lines 45-58): fetch documents (optionally
filtered by `featured`), attach `id = str(_id)` to each. -/
def list_products (s : CatalogStore) (featured : Option Bool) :
    List ProductResponse :=
  (get_documents s featured).map (fun d => ⟨Nat.repr d.1, d.2⟩)

/-- Function `create_product` (main.py lines 60-66) together with the FastAPI/pydantic
request-body validation that runs before the handler: an invalid body is
rejected with a 422 and the handler (hence `create_document`) never runs, so
the store is returned unchanged. -/
def create_product (s : CatalogStore) (p : Product) :
    Option Nat × CatalogStore :=
  if p.valid then
    let r := create_document s p
    (some r.1, r.2)
  else (none, s)

/-- A well-formed ObjectId string naming the 30-unit demo product. -/
def aId : String := "aaaaaaaaaaaaaaaaaaaaaaaa"

/-- A well-formed ObjectId string naming the 50-unit demo product. -/
def bId : String := "bbbbbbbbbbbbbbbbbbbbbbbb"

/-- A well-formed ObjectId string naming the priceless demo product. -/
def cId : String := "cccccccccccccccccccccccc"

/-- A well-formed ObjectId string stored under no product. -/
def dId : String := "dddddddddddddddddddddddd"

/-- A small concrete catalog used to exercise the theorems: product `aId`
costs 30, product `bId` costs 50, product `cId` is stored without a price
field; every other id is absent. -/
def demoStore : Catalog := fun pid =>
  if pid = aId then some ⟨some "Thermal Leggings", some 30⟩
  else if pid = bId then some ⟨some "Wool Tights", some 50⟩
  else if pid = cId then some ⟨some "Mystery Pair", none⟩
  else none

/-- A checkout request hitting the free-shipping boundary exactly:
2 × product `bId` gives subtotal 100. -/
def boundaryPayload : CheckoutRequest :=
  ⟨[⟨bId, 2, none, none⟩], "Ada", "ada@example.com", "1 Main St", none⟩

/-- The spec's scenario: 2 × product `aId` (30) and 1 × product `bId` (50),
subtotal 110. -/
def scenarioPayload : CheckoutRequest :=
  ⟨[⟨aId, 2, some "black", some "M"⟩, ⟨bId, 1, none, some "S"⟩],
    "Ada", "ada@example.com", "1 Main St", some "ring twice"⟩

/-- A request whose second line bears a well-formed ObjectId absent from
`demoStore`. -/
def missingPayload : CheckoutRequest :=
  ⟨[⟨aId, 1, none, none⟩, ⟨dId, 1, none, none⟩],
    "Ada", "ada@example.com", "1 Main St", none⟩

/-- A request whose single line bears the malformed product id "zzz": not a
24-character hex string, so `ObjectId("zzz")` raises before any `find`. -/
def malformedPayload : CheckoutRequest :=
  ⟨[⟨"zzz", 1, none, none⟩], "Ada", "ada@example.com", "1 Main St", none⟩

/-- A request with quantity 0 on the resolvable product `aId`: it passes
request validation because `CartItem` declares no lower bound on
`quantity`. -/
def zeroQtyPayload : CheckoutRequest :=
  ⟨[⟨aId, 0, none, none⟩], "Ada", "ada@example.com", "1 Main St", none⟩

/-- A request with an empty cart. -/
def emptyCartPayload : CheckoutRequest :=
  ⟨[], "Ada", "ada@example.com", "1 Main St", none⟩

/-- A request for 3 × product `cId`, whose stored document has no price. -/
def pricelessPayload : CheckoutRequest :=
  ⟨[⟨cId, 3, none, none⟩], "Ada", "ada@example.com", "1 Main St", none⟩

/-- A fully valid product used to exercise the catalog theorems. -/
def demoProduct : Product :=
  ⟨"Fleece Leggings", some "warm", 42, "leggings", true, [], ["black"],
    ["S", "M"], true, some 4, some "fleece", some "FL-1"⟩

/-- A product with a negative price. -/
def badPriceProduct : Product :=
  ⟨"Broken", none, -1, "leggings", true, [], [], [], false, some 3, none, none⟩

/-- A small well-formed catalog store holding one product under id 0. -/
def demoCatalog : CatalogStore :=
  ⟨[(0, ⟨"Old Pair", none, 10, "leggings", true, [], [], [], false,
      some 5, none, none⟩)], 1⟩

/-- The order produced for `boundaryPayload`. -/
def boundaryOrder : Order :=
  ⟨[⟨bId, "Wool Tights", 50, none, none, 2⟩],
    "Ada", "ada@example.com", "1 Main St", 100, 0, 100, "pending", none⟩

/-- The order produced for `scenarioPayload`. -/
def scenarioOrder : Order :=
  ⟨[⟨aId, "Thermal Leggings", 30, some "black", some "M", 2⟩,
    ⟨bId, "Wool Tights", 50, none, some "S", 1⟩],
    "Ada", "ada@example.com", "1 Main St", 110, 0, 110, "pending",
    some "ring twice"⟩

/-- The order produced for `pricelessPayload`. -/
def pricelessOrder : Order :=
  ⟨[⟨cId, "Mystery Pair", 0, none, none, 3⟩],
    "Ada", "ada@example.com", "1 Main St", 0, 10, 10, "pending", none⟩

/-- The order produced for `emptyCartPayload`: it has zero items. -/
def emptyCartOrder : Order :=
  ⟨[], "Ada", "ada@example.com", "1 Main St", 0, 10, 10, "pending", none⟩

/-- Decimal value of a digit character, used only to invert `Nat.repr` when
reasoning about the stringified identifiers of `list_products`. -/
def decChar (c : Char) : Nat :=
  if c = '0' then 0 else if c = '1' then 1 else if c = '2' then 2 else
  if c = '3' then 3 else if c = '4' then 4 else if c = '5' then 5 else
  if c = '6' then 6 else if c = '7' then 7 else if c = '8' then 8 else 9

/-- Decimal value of a most-significant-first digit list. -/
def decList (l : List Char) : Nat :=
  l.foldl (fun a c => 10 * a + decChar c) 0

/-! ## Invariants of the checkout loop -/

theorem checkoutLoop_ok_inv (store : Catalog) :
    ∀ (items : List CartItem) (s0 : ℚ) (acc : List OrderItem)
      (fet : List String) (s : ℚ) (out : List OrderItem) (tr : List String),
      checkoutLoop store items s0 acc fet = (.ok (s, out), tr) →
      s = s0 + subtotalSpec store items ∧
      ∃ snaps, out = acc ++ snaps ∧
        List.Forall₂ (SnapshotOf store) items snaps ∧
        tr = fet ++ items.map CartItem.product_id := by
  intro items
  induction items with
  | nil =>
    intro s0 acc fet s out tr h
    simp only [checkoutLoop, Prod.mk.injEq, Except.ok.injEq] at h
    obtain ⟨⟨hs, hout⟩, htr⟩ := h
    refine ⟨by simp [subtotalSpec, hs], [], by simp [hout], .nil, by simp [htr]⟩
  | cons it rest ih =>
    intro s0 acc fet s out tr h
    simp only [checkoutLoop] at h
    split at h
    · split at h
      · simp at h
      · rename_i prod hst
        split at h
        · simp at h
        · rename_i t hti
          split at h
          · rename_i hv
            obtain ⟨hs, snaps, hout, hrel, htr⟩ := ih _ _ _ _ _ _ h
            refine ⟨?_, ⟨it.product_id, t, prod.price.getD 0, it.color,
              it.size, it.quantity⟩ :: snaps, ?_, ?_, ?_⟩
            · rw [hs]
              simp only [subtotalSpec, List.map_cons, List.sum_cons,
                linePrice, hst]
              ring
            · rw [hout]; simp
            · exact .cons ⟨prod, hst, t, hti, rfl⟩ hrel
            · rw [htr]; simp
          · simp at h
    · simp at h

theorem checkout_created_inv (store : Catalog) (payload : CheckoutRequest)
    (o : Order) (tr : List String)
    (h : checkout store payload = (.created o, tr)) :
    ∃ s out, checkoutLoop store payload.items 0 [] [] = (.ok (s, out), tr) ∧
      o.items = out ∧ o.subtotal = s ∧
      o.shipping_cost = (if 100 ≤ s then (0 : ℚ) else 10) ∧
      o.total = s + o.shipping_cost ∧
      o.status = "pending" := by
  unfold checkout at h
  split at h
  · simp at h
  · simp at h
  · simp at h
  · rename_i s out tr2 heq
    by_cases hs : (100 : ℚ) ≤ s
    · rw [if_pos hs] at h
      simp only [] at h
      split at h
      · simp only [Prod.mk.injEq, CheckoutOutcome.created.injEq] at h
        obtain ⟨ho, htr⟩ := h
        subst htr
        refine ⟨s, out, heq, ?_⟩
        rw [← ho]
        exact ⟨rfl, rfl, by rw [if_pos hs], rfl, rfl⟩
      · simp at h
    · rw [if_neg hs] at h
      simp only [] at h
      split at h
      · simp only [Prod.mk.injEq, CheckoutOutcome.created.injEq] at h
        obtain ⟨ho, htr⟩ := h
        subst htr
        refine ⟨s, out, heq, ?_⟩
        rw [← ho]
        exact ⟨rfl, rfl, by rw [if_neg hs], rfl, rfl⟩
      · simp at h

theorem forall₂_snapshot_resolves (store : Catalog) :
    ∀ {items : List CartItem} {snaps : List OrderItem},
      List.Forall₂ (SnapshotOf store) items snaps →
      ∀ it ∈ items, store it.product_id ≠ none := by
  intro items snaps hrel
  induction hrel with
  | nil => intro it hmem; cases hmem
  | cons hhead _ ih =>
    intro it hmem
    rcases List.mem_cons.mp hmem with rfl | htail
    · obtain ⟨prod, hst, _⟩ := hhead
      rw [hst]
      exact fun hc => Option.noConfusion hc
    · exact ih it htail

theorem checkoutLoop_first_unresolved (store : Catalog) :
    ∀ (items : List CartItem) (s0 : ℚ) (acc : List OrderItem)
      (fet : List String),
      (∀ it ∈ items, isValidObjectId it.product_id = true) →
      (∀ it ∈ items, validLine store it) →
      ∀ it0, items.find? (fun it => (store it.product_id).isNone) = some it0 →
        ∃ tr, checkoutLoop store items s0 acc fet =
          (.error (.notFound it0.product_id), tr) := by
  intro items
  induction items with
  | nil => intro s0 acc fet _ _ it0 hfind; simp [List.find?] at hfind
  | cons it rest ih =>
    intro s0 acc fet hvalid hv it0 hfind
    have hval : isValidObjectId it.product_id = true :=
      hvalid it (List.mem_cons_self it rest)
    by_cases hn : (store it.product_id).isNone = true
    · simp only [List.find?_cons, hn] at hfind
      obtain rfl : it = it0 := by injection hfind
      obtain hst : store it.product_id = none := Option.isNone_iff_eq_none.mp hn
      refine ⟨fet ++ [it.product_id], ?_⟩
      simp only [checkoutLoop]
      rw [if_pos hval, hst]
    · obtain ⟨prod, hst⟩ : ∃ prod, store it.product_id = some prod := by
        cases hsome : store it.product_id with
        | none => rw [hsome] at hn; simp at hn
        | some prod => exact ⟨prod, rfl⟩
      have hnf : (store it.product_id).isNone = false := by
        rw [hst]; rfl
      simp only [List.find?_cons, hnf] at hfind
      obtain ⟨hti, hpr, hq⟩ := hv it (List.mem_cons_self it rest) prod hst
      obtain ⟨t, hts⟩ := Option.isSome_iff_exists.mp hti
      obtain ⟨tr, htr⟩ := ih (s0 + prod.price.getD 0 * (it.quantity : ℚ))
        (acc ++ [⟨it.product_id, t, prod.price.getD 0, it.color, it.size,
          it.quantity⟩])
        (fet ++ [it.product_id])
        (fun jt hjt => hvalid jt (List.mem_cons_of_mem it hjt))
        (fun jt hjt => hv jt (List.mem_cons_of_mem it hjt)) it0 hfind
      refine ⟨tr, ?_⟩
      simp only [checkoutLoop]
      rw [if_pos hval, hst]
      simp only [hts]
      rw [if_pos ?_]
      · exact htr
      · simp only [OrderItem.valid, Bool.and_eq_true, decide_eq_true_eq]
        exact ⟨hpr, hq⟩

theorem checkout_of_loop_notFound (store : Catalog)
    (payload : CheckoutRequest) (pid : String) (tr : List String)
    (h : checkoutLoop store payload.items 0 [] [] =
      (.error (.notFound pid), tr)) :
    checkout store payload = (.notFound pid, tr) := by
  unfold checkout
  rw [h]

/-! ## Injectivity of the stringified identifier -/

theorem decChar_digitChar : ∀ m, m < 10 → decChar (Nat.digitChar m) = m := by
  decide

theorem toDigitsCore_append : ∀ (fuel n : Nat) (ds : List Char),
    Nat.toDigitsCore 10 fuel n ds = Nat.toDigitsCore 10 fuel n [] ++ ds := by
  intro fuel
  induction fuel with
  | zero => intro n ds; simp [Nat.toDigitsCore]
  | succ f ih =>
    intro n ds
    simp only [Nat.toDigitsCore]
    by_cases h : n / 10 = 0
    · simp [h]
    · rw [if_neg h, if_neg h, ih (n / 10) (Nat.digitChar (n % 10) :: ds),
        ih (n / 10) [Nat.digitChar (n % 10)]]
      simp

theorem toDigitsCore_fuel :
    ∀ (n f1 f2 : Nat), n < f1 → n < f2 →
      Nat.toDigitsCore 10 f1 n [] = Nat.toDigitsCore 10 f2 n [] := by
  intro n
  induction n using Nat.strong_induction_on with
  | _ n ih =>
    intro f1 f2 h1 h2
    obtain ⟨g1, rfl⟩ : ∃ g, f1 = g + 1 := ⟨f1 - 1, by omega⟩
    obtain ⟨g2, rfl⟩ : ∃ g, f2 = g + 1 := ⟨f2 - 1, by omega⟩
    simp only [Nat.toDigitsCore]
    by_cases h : n / 10 = 0
    · simp [h]
    · have hpos : 0 < n := by omega
      have hdiv : n / 10 < n := Nat.div_lt_self hpos (by omega)
      rw [if_neg h, if_neg h,
        toDigitsCore_append g1 (n / 10) [Nat.digitChar (n % 10)],
        toDigitsCore_append g2 (n / 10) [Nat.digitChar (n % 10)],
        ih (n / 10) hdiv g1 g2 (by omega) (by omega)]

theorem toDigits_small (n : Nat) (h : n < 10) :
    Nat.toDigits 10 n = [Nat.digitChar n] := by
  unfold Nat.toDigits
  simp only [Nat.toDigitsCore]
  have h0 : n / 10 = 0 := by omega
  have hm : n % 10 = n := by omega
  rw [if_pos h0, hm]

theorem toDigits_split (n : Nat) (h : 10 ≤ n) :
    Nat.toDigits 10 n =
      Nat.toDigits 10 (n / 10) ++ [Nat.digitChar (n % 10)] := by
  have h0 : ¬ n / 10 = 0 := by omega
  have hdiv : n / 10 < n := Nat.div_lt_self (by omega) (by omega)
  have e1 : Nat.toDigits 10 n = Nat.toDigitsCore 10 (n + 1) n [] := rfl
  have e2 : Nat.toDigitsCore 10 (n + 1) n [] =
      Nat.toDigitsCore 10 n (n / 10) [Nat.digitChar (n % 10)] := by
    simp only [Nat.toDigitsCore]
    rw [if_neg h0]
  rw [e1, e2, toDigitsCore_append n (n / 10) [Nat.digitChar (n % 10)],
    toDigitsCore_fuel (n / 10) n (n / 10 + 1) hdiv (by omega)]
  rfl

theorem decList_append_singleton (xs : List Char) (c : Char) :
    decList (xs ++ [c]) = 10 * decList xs + decChar c := by
  simp [decList, List.foldl_append]

theorem decList_toDigits : ∀ n : Nat, decList (Nat.toDigits 10 n) = n := by
  intro n
  induction n using Nat.strong_induction_on with
  | _ n ih =>
    by_cases h : n < 10
    · rw [toDigits_small n h]
      simp [decList, decChar_digitChar n h]
    · push_neg at h
      have hdiv : n / 10 < n := Nat.div_lt_self (by omega) (by omega)
      rw [toDigits_split n h, decList_append_singleton, ih (n / 10) hdiv,
        decChar_digitChar (n % 10) (by omega)]
      omega

theorem natRepr_injective : Function.Injective Nat.repr := by
  intro m n h
  have hdata : Nat.toDigits 10 m = Nat.toDigits 10 n := by
    have h2 := congrArg String.data h
    simpa [Nat.repr, List.asString] using h2
  have h3 := congrArg decList hdata
  rwa [decList_toDigits, decList_toDigits] at h3

/-! ## Claims

`Rat.mul` and `Rat.add` are `@[irreducible]` in Batteries; the witnesses
below evaluate `checkout` on concrete stores, so they are made reducible
for this section only. -/

section

attribute [local semireducible] Rat.mul Rat.add

/-- C1: for every checkout in which all cart lines resolve (hence every
persisted order), the computed shipping cost is 0 exactly when the computed
subtotal is at least 100, and is 10 otherwise; subtotal exactly 100 gives
free shipping, as the `100 ≤` comparison includes the boundary. -/
theorem checkout_shipping_cost_iff (store : Catalog)
    (payload : CheckoutRequest) (o : Order) (tr : List String)
    (h : checkout store payload = (.created o, tr)) :
    (o.shipping_cost = 0 ↔ 100 ≤ o.subtotal) ∧
      (o.subtotal < 100 → o.shipping_cost = 10) := by
  obtain ⟨s, out, _, _, hsub, hship, _, _⟩ :=
    checkout_created_inv store payload o tr h
  rcases le_or_lt 100 s with hs | hs
  · rw [hship, if_pos hs, hsub]
    exact ⟨iff_of_true rfl hs, fun hc => absurd hs (not_le.mpr hc)⟩
  · rw [hship, if_neg (not_le.mpr hs), hsub]
    exact ⟨iff_of_false (by norm_num) (not_le.mpr hs), fun _ => rfl⟩

/-- C1 witness: the boundary request (2 × 50 = subtotal exactly 100)
produces an order, and the theorem's conclusion holds for it:
shipping cost 0. -/
theorem checkout_shipping_cost_iff_witness :
    (boundaryOrder.shipping_cost = 0 ↔ 100 ≤ boundaryOrder.subtotal) ∧
      (boundaryOrder.subtotal < 100 → boundaryOrder.shipping_cost = 10) :=
  checkout_shipping_cost_iff demoStore boundaryPayload boundaryOrder [bId]
    (by rfl)

/-- C2: for every persisted order (which requires every line to resolve),
the computed subtotal is the sum over all cart lines of the resolved
document's price times the line's quantity. -/
theorem checkout_subtotal_eq_sum (store : Catalog)
    (payload : CheckoutRequest) (o : Order) (tr : List String)
    (h : checkout store payload = (.created o, tr)) :
    o.subtotal = subtotalSpec store payload.items := by
  obtain ⟨s, out, hl, _, hsub, _, _, _⟩ :=
    checkout_created_inv store payload o tr h
  obtain ⟨hs, _⟩ := checkoutLoop_ok_inv store payload.items 0 [] [] s out tr hl
  rw [hsub, hs, zero_add]

/-- C2 witness: the two-line scenario (2 × 30 + 1 × 50) yields
subtotal 110 = the sum of price × quantity over both lines. -/
theorem checkout_subtotal_eq_sum_witness :
    scenarioOrder.subtotal = subtotalSpec demoStore scenarioPayload.items :=
  checkout_subtotal_eq_sum demoStore scenarioPayload scenarioOrder
    [aId, bId] (by rfl)

/-- C4: every successfully constructed order satisfies
total = subtotal + shipping cost at construction time. -/
theorem order_total_eq_subtotal_add_shipping (store : Catalog)
    (payload : CheckoutRequest) (o : Order) (tr : List String)
    (h : checkout store payload = (.created o, tr)) :
    o.total = o.subtotal + o.shipping_cost := by
  obtain ⟨s, out, _, _, hsub, _, htot, _⟩ :=
    checkout_created_inv store payload o tr h
  rw [htot, hsub]

/-- C4 witness: the scenario order has total 110 = 110 + 0. -/
theorem order_total_eq_subtotal_add_shipping_witness :
    scenarioOrder.total = scenarioOrder.subtotal + scenarioOrder.shipping_cost :=
  order_total_eq_subtotal_add_shipping demoStore scenarioPayload
    scenarioOrder [aId, bId] (by rfl)

/-- C5: every persisted order has status "pending" and its items are, line
by line, snapshots of the cart lines: product id, color, size and quantity
copied from the cart line, title and price from the product document
resolved at purchase time. -/
theorem checkout_order_snapshot (store : Catalog)
    (payload : CheckoutRequest) (o : Order) (tr : List String)
    (h : checkout store payload = (.created o, tr)) :
    o.status = "pending" ∧
      List.Forall₂ (SnapshotOf store) payload.items o.items := by
  obtain ⟨s, out, hl, hi, _, _, _, hstat⟩ :=
    checkout_created_inv store payload o tr h
  obtain ⟨_, snaps, hout, hrel, _⟩ :=
    checkoutLoop_ok_inv store payload.items 0 [] [] s out tr hl
  refine ⟨hstat, ?_⟩
  rw [hi, hout]
  simpa using hrel

/-- C5 witness: the scenario order is pending and snapshots both lines. -/
theorem checkout_order_snapshot_witness :
    scenarioOrder.status = "pending" ∧
      List.Forall₂ (SnapshotOf demoStore) scenarioPayload.items
        scenarioOrder.items :=
  checkout_order_snapshot demoStore scenarioPayload scenarioOrder
    [aId, bId] (by rfl)

/-- C3 counterexample: the id "zzz" is unresolvable — no product is stored
under it — yet the checkout does not fail with the claimed 404 NotFound:
"zzz" is not a 24-character hex string, so `ObjectId("zzz")` raises
`InvalidId` before any `find` (empty fetch trace) and the generic `except`
surfaces a 500 server error. -/
theorem checkout_unresolvable_counterexample :
    demoStore "zzz" = none ∧ isValidObjectId "zzz" = false ∧
      checkout demoStore malformedPayload = (.serverError, []) :=
  ⟨rfl, rfl, rfl⟩

/-- C3 (amended): a checkout request containing an unresolvable product id
never persists an order (the order-store insert is never reached).  If
moreover every line's product id is a well-formed 24-hex ObjectId string
and every line that resolves yields a pydantic-valid snapshot, the
checkout fails with a 404 NotFound identifying the first unresolvable
product id; a malformed id or an earlier line's validation failure
instead aborts with a 500. -/
theorem checkout_unresolvable_no_persist (store : Catalog)
    (payload : CheckoutRequest)
    (hex : ∃ it ∈ payload.items, store it.product_id = none) :
    (∀ o tr, checkout store payload ≠ (.created o, tr)) ∧
      ((∀ it ∈ payload.items, isValidObjectId it.product_id = true) →
        (∀ it ∈ payload.items, validLine store it) →
        ∃ it0, payload.items.find?
            (fun it => (store it.product_id).isNone) = some it0 ∧
          store it0.product_id = none ∧
          ∃ tr, checkout store payload = (.notFound it0.product_id, tr)) := by
  constructor
  · intro o tr hc
    obtain ⟨s, out, hl, _⟩ := checkout_created_inv store payload o tr hc
    obtain ⟨_, snaps, _, hrel, _⟩ :=
      checkoutLoop_ok_inv store payload.items 0 [] [] s out tr hl
    obtain ⟨it, hmem, hnone⟩ := hex
    exact forall₂_snapshot_resolves store hrel it hmem hnone
  · intro hvalid hv
    have hfind :
        (payload.items.find? (fun it => (store it.product_id).isNone)).isSome := by
      rw [List.find?_isSome]
      obtain ⟨it, hmem, hnone⟩ := hex
      exact ⟨it, hmem, by rw [hnone]; rfl⟩
    obtain ⟨it0, hit0⟩ := Option.isSome_iff_exists.mp hfind
    have hp := List.find?_some hit0
    have hnone0 : store it0.product_id = none :=
      Option.isNone_iff_eq_none.mp (by simpa using hp)
    obtain ⟨tr, htr⟩ :=
      checkoutLoop_first_unresolved store payload.items 0 [] []
        hvalid hv it0 hit0
    exact ⟨it0, hit0, hnone0, tr,
      checkout_of_loop_notFound store payload it0.product_id tr htr⟩

/-- C3 witness: for the request [1 × `aId`, 1 × `dId`] where `dId` is a
well-formed ObjectId stored under no product, no order is persisted and
(all ids well-formed, all resolving lines valid) the checkout 404s on
`dId`. -/
theorem checkout_unresolvable_no_persist_witness :
    (∀ o tr, checkout demoStore missingPayload ≠ (.created o, tr)) ∧
      ((∀ it ∈ missingPayload.items, isValidObjectId it.product_id = true) →
        (∀ it ∈ missingPayload.items, validLine demoStore it) →
        ∃ it0, missingPayload.items.find?
            (fun it => (demoStore it.product_id).isNone) = some it0 ∧
          demoStore it0.product_id = none ∧
          ∃ tr, checkout demoStore missingPayload =
            (.notFound it0.product_id, tr)) :=
  checkout_unresolvable_no_persist demoStore missingPayload
    ⟨⟨dId, 1, none, none⟩, by decide, by decide⟩

/-- C6 (code evaluation at the failing input): a cart line with quantity 0
on the resolvable product `aId` is not rejected before store interaction —
the fetch trace contains `aId`, the product is resolvable, and the outcome
is the 500 server error produced when `OrderItem` validation fails, not a
client validation error. -/
theorem quantity_zero_fetch_then_500 :
    checkout demoStore zeroQtyPayload = (.serverError, [aId]) ∧
      (demoStore aId).isSome = true ∧
      (zeroQtyPayload.items.map CartItem.quantity) = [0] :=
  ⟨rfl, rfl, rfl⟩

/-- C8 counterexample: the empty cart passes request validation and
produces a persisted order with zero items (subtotal 0, shipping 10). -/
theorem empty_cart_creates_empty_order :
    checkout demoStore emptyCartPayload = (.created emptyCartOrder, []) ∧
      emptyCartOrder.items.length = 0 :=
  ⟨rfl, rfl⟩

/-- C8 (amended): a persisted order has exactly one item per cart line, so
its items list is non-empty exactly when the cart was non-empty; the code
does not reject an empty cart, which yields an order with zero items. -/
theorem order_items_length_eq_cart_length (store : Catalog)
    (payload : CheckoutRequest) (o : Order) (tr : List String)
    (h : checkout store payload = (.created o, tr)) :
    o.items.length = payload.items.length := by
  obtain ⟨s, out, hl, hio, _⟩ := checkout_created_inv store payload o tr h
  obtain ⟨_, snaps, hout, hrel, _⟩ :=
    checkoutLoop_ok_inv store payload.items 0 [] [] s out tr hl
  rw [hio, hout]
  simpa using hrel.length_eq.symm

/-- C8 witness: the two-line scenario order has two items. -/
theorem order_items_length_eq_cart_length_witness :
    scenarioOrder.items.length = scenarioPayload.items.length :=
  order_items_length_eq_cart_length demoStore scenarioPayload scenarioOrder
    [aId, bId] (by rfl)

/-- C10: when a resolved document lacks a price field, checkout treats its
price as 0: the corresponding order item has price 0 and the line
contributes 0 to the subtotal; the checkout itself succeeds (see the
witness for a priceless document flowing through to a created order). -/
theorem missing_price_zero (store : Catalog) (payload : CheckoutRequest)
    (o : Order) (tr : List String)
    (h : checkout store payload = (.created o, tr))
    (i : ℕ) (hi : i < payload.items.length) (prod : ProductDoc)
    (hres : store ((payload.items.get ⟨i, hi⟩).product_id) = some prod)
    (hnp : prod.price = none) :
    ∃ hj : i < o.items.length,
      (o.items.get ⟨i, hj⟩).price = 0 ∧
        linePrice store (payload.items.get ⟨i, hi⟩) *
          ((payload.items.get ⟨i, hi⟩).quantity : ℚ) = 0 := by
  obtain ⟨s, out, hl, hio, _⟩ := checkout_created_inv store payload o tr h
  obtain ⟨_, snaps, hout, hrel0, _⟩ :=
    checkoutLoop_ok_inv store payload.items 0 [] [] s out tr hl
  have hrel : List.Forall₂ (SnapshotOf store) payload.items o.items := by
    rw [hio, hout]
    simpa using hrel0
  have hj : i < o.items.length := by
    rw [← hrel.length_eq]
    exact hi
  refine ⟨hj, ?_, ?_⟩
  · have hg := (List.forall₂_iff_get.mp hrel).2 i hi hj
    obtain ⟨prod', hres', t, hti, heq⟩ := hg
    rw [hres'] at hres
    obtain rfl : prod' = prod := by injection hres
    rw [heq]
    simp [hnp]
  · have hlp : linePrice store (payload.items.get ⟨i, hi⟩) = 0 := by
      unfold linePrice
      rw [hres]
      show prod.price.getD 0 = 0
      rw [hnp]
      rfl
    rw [hlp, zero_mul]

/-- C10 witness: product "c" is stored without a price; checking out 3 of
it succeeds with item price 0 and zero subtotal contribution. -/
theorem missing_price_zero_witness :
    ∃ hj : 0 < pricelessOrder.items.length,
      (pricelessOrder.items.get ⟨0, hj⟩).price = 0 ∧
        linePrice demoStore (pricelessPayload.items.get ⟨0, by decide⟩) *
          ((pricelessPayload.items.get ⟨0, by decide⟩).quantity : ℚ) = 0 :=
  missing_price_zero demoStore pricelessPayload pricelessOrder [cId]
    (by rfl) 0 (by decide) ⟨some "Mystery Pair", none⟩ rfl rfl

/-- C7: product creation rejects every input with a negative price or a
warmth rating outside [1,5]; the rejection happens at request validation,
before storage — the returned store is the unchanged input store, so no
catalog insert is performed. -/
theorem create_product_rejects_invalid (s : CatalogStore) (p : Product)
    (hbad : p.price < 0 ∨
      ∃ r, p.warmth_rating = some r ∧ (r < 1 ∨ 5 < r)) :
    create_product s p = (none, s) := by
  have hv : p.valid = false := by
    unfold Product.valid
    rcases hbad with hp | ⟨r, hr, hout⟩
    · have hd : decide (0 ≤ p.price) = false := decide_eq_false (not_le.mpr hp)
      simp [hd]
    · rw [hr]
      rcases hout with h1 | h5
      · have hd : decide (1 ≤ r) = false := decide_eq_false (by omega)
        simp [hd]
      · have hd : decide (r ≤ 5) = false := decide_eq_false (by omega)
        simp [hd]
  simp [create_product, hv]

/-- C7 witness: the product priced -1 is rejected and the demo catalog is
left untouched. -/
theorem create_product_rejects_invalid_witness :
    create_product demoCatalog badPriceProduct = (none, demoCatalog) :=
  create_product_rejects_invalid demoCatalog badPriceProduct
    (Or.inl (by decide))

/-- C9: inserting a valid product into a well-formed store and then listing
with no filter yields the product exactly once — the single response whose
id is the stringified new identifier carries all of the product's fields —
and that identifier is new: no response of the pre-insert listing has it. -/
theorem product_round_trip (s : CatalogStore) (p : Product)
    (hwf : s.wf) (hv : p.valid = true) :
    ∃ pid s2, create_product s p = (some pid, s2) ∧
      (list_products s2 none).filter
          (fun r => r.id == Nat.repr pid) = [⟨Nat.repr pid, p⟩] ∧
      ∀ r ∈ list_products s none, r.id ≠ Nat.repr pid := by
  refine ⟨s.next, ⟨s.docs ++ [(s.next, p)], s.next + 1⟩, ?_, ?_, ?_⟩
  · simp [create_product, hv, create_document]
  · simp only [list_products, get_documents, List.map_append,
      List.filter_append]
    have hold : ((s.docs.map fun d =>
        (⟨Nat.repr d.1, d.2⟩ : ProductResponse)).filter
          fun r => r.id == Nat.repr s.next) = [] := by
      rw [List.filter_eq_nil_iff]
      intro r hr
      obtain ⟨d, hd, rfl⟩ := List.mem_map.mp hr
      simp only [beq_iff_eq]
      intro hcontra
      have h2 := natRepr_injective hcontra
      have h3 := hwf d hd
      omega
    rw [hold]
    simp
  · intro r hr
    simp only [list_products, get_documents, List.mem_map] at hr
    obtain ⟨d, hd, rfl⟩ := hr
    simp only [ne_eq]
    intro hcontra
    have h2 := natRepr_injective hcontra
    have h3 := hwf d hd
    omega

/-- C9 witness: inserting the demo product into the one-product demo
catalog and listing unfiltered yields it exactly once under the fresh id. -/
theorem product_round_trip_witness :
    ∃ pid s2, create_product demoCatalog demoProduct = (some pid, s2) ∧
      (list_products s2 none).filter
          (fun r => r.id == Nat.repr pid) = [⟨Nat.repr pid, demoProduct⟩] ∧
      ∀ r ∈ list_products demoCatalog none, r.id ≠ Nat.repr pid :=
  product_round_trip demoCatalog demoProduct
    (by unfold CatalogStore.wf demoCatalog; decide) (by rfl)

end

end WarmLeggs
